import Mathlib

/-!
Shallow embedding of the cdsdashboards build/stream core:
* `cdsbuilder/builder/dockerbuilder.py` — `DockerBuilder.start`
* `cdsbuilder/hubextension/events.py` — `ProgressDashboardHandler.get`

Progress events are ordered key/value mappings; errors are an explicit
inductive; the asynchronous sequencing of `start` is embedded as a pure
function from the outcomes of its suspension points (bridge calls, poll)
to the trace of actions it performs and its result.
-/

/-- A scalar value stored in a progress event (Python dict values used here). -/
inductive EVal where
  | nat (n : Nat)
  | str (s : String)
  | bool (b : Bool)
deriving DecidableEq, Repr

/-- A progress event: an ordered mapping from string keys to scalar values,
mirroring the Python dicts put on the builder event queue. -/
def Event : Type := List (String × EVal)

instance : DecidableEq Event := by
  unfold Event
  infer_instance

instance : Repr Event :=
  inferInstanceAs (Repr (List (String × EVal)))

/-- Membership test for a key, mirroring Python `k in event`. -/
def hasKey (ev : Event) (k : String) : Bool :=
  ev.any (fun kv => kv.1 == k)

/-- Look up a key in an event (first occurrence), mirroring `event[k]`. -/
def lookupKey (ev : Event) (k : String) : Option EVal :=
  (ev.find? (fun kv => kv.1 == k)).map (fun kv => kv.2)

/-- `if 'ready' in event: event.pop('ready', None)` from
`ProgressDashboardHandler.get`: remove the `ready` key when present. -/
def popReady (ev : Event) : Event :=
  if hasKey ev "ready" then ev.filter (fun kv => kv.1 != "ready") else ev

/-- Errors raised by the build sequence.  `buildException` mirrors
`BuildException(msg)`; `buildExceptionCode` mirrors `BuildException(code, msg)`;
`cancelled` models `asyncio.CancelledError` delivered at an await point. -/
inductive BuildErr where
  | buildException (msg : String)
  | buildExceptionCode (code : Nat) (msg : String)
  | cancelled
deriving DecidableEq, Repr

/-- `str(e)` for a single-argument `BuildException`, as used by
`"Build failed: %s" % f.exception()`. -/
def errStr : BuildErr → String
  | .buildException msg => msg
  | .buildExceptionCode code msg => toString code ++ ": " ++ msg
  | .cancelled => "cancelled"

/-- One observable action of the builder: pushing an event on the event queue
(`event_queue.put_nowait`), a bridge call (`self.docker(method, ...)`), or a
timed wait (`gen.sleep(n)`). -/
inductive BAction where
  | emit (ev : Event)
  | bridge (method : String)
  | sleep (n : Nat)
deriving DecidableEq, Repr

/-- The events a trace pushed on the event queue, in order. -/
def eventsOf (tr : List BAction) : List Event :=
  tr.filterMap (fun a => match a with
    | .emit ev => some ev
    | _ => none)

/-- Configuration of `DockerBuilder` relevant to `start`:
`repo_prefix` (traitlet, default `'cdsuser'`), `allow_named_servers`
(source: `True`), `named_server_limit_per_user` (source: `10`). -/
structure BuilderConfig where
  repo_prefix : String
  allow_named_servers : Bool
  named_server_limit_per_user : Nat
deriving DecidableEq, Repr

/-- Default configuration as written in `dockerbuilder.py`. -/
def cfgDefault : BuilderConfig :=
  ⟨"cdsuser", true, 10⟩

/-- The dashboard fields `start` reads: `urlname`, `groupname`, `allow_all`,
and `dashboard.user.name` (via `User(dashboard.user)`). -/
structure DashboardRec where
  urlname : String
  groupname : String
  allow_all : Bool
  userName : String
deriving DecidableEq, Repr

/-- A wall-clock instant, for `datetime.today()`. -/
structure Timestamp where
  year : Nat
  month : Nat
  day : Nat
  hour : Nat
  minute : Nat
  second : Nat
deriving DecidableEq, Repr

/-- Zero-pad a number to two digits, as `strftime` field formatting does. -/
def pad2 (n : Nat) : String :=
  if n < 10 then "0" ++ toString n else toString n

/-- Zero-pad a year to four digits (`%Y`). -/
def pad4 (n : Nat) : String :=
  if n < 10 then "000" ++ toString n
  else if n < 100 then "00" ++ toString n
  else if n < 1000 then "0" ++ toString n
  else toString n

/-- `datetime.today().strftime('%Y%m%d-%H%M%S')`. -/
def strftimeTag (t : Timestamp) : String :=
  pad4 t.year ++ pad2 t.month ++ pad2 t.day ++ "-" ++
    pad2 t.hour ++ pad2 t.minute ++ pad2 t.second

/-- The environment of one `start` call: the value read from the source
spawner state, the outcomes of the two bridge calls, the clock, and the
named-server registry state of the dashboard user. -/
structure StartEnv where
  object_id : Option String
  inspectResult : Except BuildErr (Option Unit)
  commitResult : Except BuildErr Unit
  now : Timestamp
  ormSpawnerNames : List String
  namedSpawnerCount : Nat
  spawnerReady : Bool
  pollResult : Except BuildErr Unit
deriving Repr

/-- `{'progress': 10, 'message': 'Starting builder'}` (line 86). -/
def startingEvent : Event :=
  [("progress", .nat 10), ("message", .str "Starting builder")]

/-- `{'progress': 60, 'message': 'Waiting in builder {i}'}` (line 132). -/
def waitingEvent (i : Nat) : Event :=
  [("progress", .nat 60), ("message", .str ("Waiting in builder " ++ toString i))]

/-- The trace of the `for i in range(8)` wait loop (lines 130-133): each
iteration pushes a progress-60 event and then sleeps one time unit. -/
def waitLoop : List BAction :=
  (List.range 8).flatMap (fun i => [.emit (waitingEvent i), .sleep 1])

/-- Shallow embedding of `DockerBuilder.start` (dockerbuilder.py lines
76-168).  Returns the trace of actions performed, the result (the
`(new_server_name, new_server_options)` pair or the raised error), and the
value of `_build_pending` when `start` itself exits: the method sets the flag
at line 88 and never clears it.  Options dicts are key/value lists. -/
def builderStart (cfg : BuilderConfig) (dash : DashboardRec) (env : StartEnv) :
    List BAction × Except BuildErr (String × List (String × String)) × Bool :=
  let tr0 : List BAction := [.emit startingEvent]
  match env.object_id with
  | none =>
      (tr0, .error (.buildException "No docker object specified in spawner state"), true)
  | some _ =>
    let tr1 := tr0 ++ [.bridge "inspect_container"]
    match env.inspectResult with
    | .error e => (tr1, .error e, true)
    | .ok none =>
        (tr1, .error (.buildException "No docker object returned as source container"), true)
    | .ok (some _) =>
      let reponame := BuilderConfig.repo_prefix cfg ++ "/" ++ dash.urlname
      let tag := strftimeTag env.now
      let image_name := reponame ++ ":" ++ tag
      let tr2 := tr1 ++ [.bridge "commit"]
      match env.commitResult with
      | .error e => (tr2, .error e, true)
      | .ok _ =>
        let tr3 := tr2 ++ waitLoop
        let new_server_name := dash.urlname ++ "-" ++ tag
        if cfg.allow_named_servers = false then
          (tr3, .error (.buildExceptionCode 400 "Named servers are not enabled."), true)
        else if cfg.named_server_limit_per_user > 0 ∧
            env.ormSpawnerNames.contains new_server_name = false then
          if cfg.named_server_limit_per_user ≤ env.namedSpawnerCount then
            (tr3, .error (.buildException
              ("User " ++ dash.userName ++ " already has the maximum of " ++
                toString cfg.named_server_limit_per_user ++ " named servers." ++
                "  One must be deleted before a new server can be created")), true)
          else
            match (if env.spawnerReady then env.pollResult else .ok ()) with
            | .error e => (tr3, .error e, true)
            | .ok _ =>
                (tr3, .ok (new_server_name, [("image", image_name)]), true)
        else
          match (if env.spawnerReady then env.pollResult else .ok ()) with
          | .error e => (tr3, .error e, true)
          | .ok _ =>
              (tr3, .ok (new_server_name, [("image", image_name)]), true)

/-- Modelled from the spec: the build orchestration in
`cdsbuilder/builder/builders.py` (a file of this repository not under `src/`)
that invokes `start`, settles the build future with the returned value or the
causing error, and clears `_build_pending` on every exit path — success,
failure and cancellation — via a scoped-acquisition (finally) pattern
(spec section 4.2 step (h) and section 8).  Returns the trace, the settled
build-future value, and the pending flag after the orchestration finishes. -/
def runBuild (cfg : BuilderConfig) (dash : DashboardRec) (env : StartEnv) :
    List BAction × Except BuildErr (String × List (String × String)) × Bool :=
  let r := builderStart cfg dash env
  (r.1, r.2.1, false)

/-- Modelled from the spec: `generateProgress` and the progress event channel
of `cdsbuilder/builder/builders.py` (not under `src/`): a subscriber draining
the channel receives exactly the events the build pushed, in submission order
(spec sections 4.3 and 8, FIFO property). -/
def generateProgress (tr : List BAction) : List Event :=
  eventsOf tr

/-! ## The progress streaming endpoint (`events.py`) -/

/-- `ready_event` of `ProgressDashboardHandler.get` (lines 42-49), with
`url = 'testurl'` hardcoded. -/
def ready_event : Event :=
  [("progress", .nat 100),
   ("ready", .bool true),
   ("message", .str "Server ready at testurl"),
   ("html_message", .str "Server ready at <a href=\"testurl\">testurl</a>"),
   ("url", .str "testurl")]

/-- `failed_event` of `ProgressDashboardHandler.get` (line 50) with the
message it carries at the point of sending: the handler mutates only the
`message` entry before sending. -/
def failed_event (msg : String) : Event :=
  [("progress", .nat 100), ("failed", .bool true), ("message", .str msg)]

/-- The inputs of one `ProgressDashboardHandler.get` request: the outcomes
of the lookups and access checks, the builder state observed at each read,
the events the relay loop receives from the merged channel/future iterator,
an optional client-disconnect cancellation point inside the relay loop, and
the value the build future is eventually settled with. -/
structure Scenario where
  dashboardFound : Bool
  userFound : Bool
  userMatches : Bool
  userAllowed : Bool
  builderReady : Bool
  buildPending : Bool
  futurePre : Option (Except BuildErr Unit)
  relayEvents : List Event
  cancelAfter : Option Nat
  futureFinal : Except BuildErr Unit
  readyFinal : Bool

/-- The observable outcome of one `get` request: an `HTTPError` raised before
the stream starts, an exception propagating out of the handler after `sent`
events were already streamed, or a normal completion having streamed
`sent`. -/
inductive GetOutcome where
  | httpError (code : Nat) (msg : String)
  | raised (e : BuildErr) (sent : List Event)
  | done (sent : List Event)
deriving DecidableEq, Repr

/-- The events the relay loop (lines 80-87) sends: each received event has
its `ready` key popped and is sent; a `CancelledError` after `k` sends is
caught (`except asyncio.CancelledError: pass`), so only the first `k`
events go out. -/
def relayedEvents (sc : Scenario) : List Event :=
  (match sc.cancelAfter with
   | some k => sc.relayEvents.take k
   | none => sc.relayEvents).map popReady

/-- Shallow embedding of `ProgressDashboardHandler.get` (events.py lines
16-108).  Control flow follows the source: 404 on missing dashboard/user,
404 on user mismatch, 403 on access denial; immediate `ready_event` when the
builder is already ready; when no build is pending, a failed event if the
build future holds an error, else HTTP 400; otherwise relay the progress
events (`ready` stripped, cancellation swallowed), then `await build_future`
— which, having no try/except around it, re-raises a stored error — and
finally send the ready terminal event or the generic failed event. -/
def endpointGet (sc : Scenario) : GetOutcome :=
  if sc.dashboardFound = false ∨ sc.userFound = false then
    .httpError 404 "No such dashboard or user"
  else if sc.userMatches = false then
    .httpError 404 "Dashboard user does not match"
  else if sc.userAllowed = false then
    .httpError 403 "User not authorized to access dashboard"
  else if sc.builderReady then
    .done [ready_event]
  else if sc.buildPending = false then
    match sc.futurePre with
    | some (.error e) => .done [failed_event ("Build failed: " ++ errStr e)]
    | _ => .httpError 400 "is not starting..."
  else
    match sc.futureFinal with
    | .error e => .raised e (relayedEvents sc)
    | .ok _ =>
      if sc.readyFinal then
        .done (relayedEvents sc ++ [ready_event])
      else
        .done (relayedEvents sc ++ [failed_event "Build failed"])

/-- The events a `get` request actually streamed to the client. -/
def sentEvents : GetOutcome → List Event
  | .httpError _ _ => []
  | .raised _ sent => sent
  | .done sent => sent

/-! ## Concrete inputs used by witnesses and counterexamples -/

/-- A dashboard record with representative field values. -/
def dashA : DashboardRec :=
  ⟨"dash1", "grp", false, "alice"⟩

/-- An environment in which every step of `start` succeeds. -/
def envOK : StartEnv :=
  ⟨some "oid", .ok (some ()), .ok (), ⟨2020, 1, 2, 3, 4, 5⟩, [], 3, false, .ok ()⟩

/-- The expected trace of a `start` call that reaches the spawn stage. -/
def trOK : List BAction :=
  [.emit startingEvent, .bridge "inspect_container", .bridge "commit"] ++ waitLoop

/-- The configuration with named servers disabled system-wide. -/
def cfgNoNamed : BuilderConfig :=
  ⟨"cdsuser", false, 10⟩

/-- An environment whose `commit` bridge call fails with
`BuildError("disk full")`. -/
def envDiskFull : StartEnv :=
  ⟨some "oid", .ok (some ()), .error (.buildException "disk full"),
   ⟨2020, 1, 2, 3, 4, 5⟩, [], 0, false, .ok ()⟩

/-- The endpoint scenario of a subscriber watching the disk-full build:
pending at subscription time, receiving the events pushed before the
failure, build future finally settling with the error. -/
def scDiskFull : Scenario :=
  ⟨true, true, true, true, false, true, none,
   generateProgress (runBuild cfgDefault dashA envDiskFull).1, none,
   .error (.buildException "disk full"), false⟩

/-- A scenario in which the client disconnects after one relayed event of
three, and the build later succeeds with the builder ready. -/
def scCancel : Scenario :=
  ⟨true, true, true, true, false, true, none,
   [startingEvent, waitingEvent 0, waitingEvent 1], some 1, .ok (), true⟩

/-- A scenario in which the client disconnects after two relayed events and
the build ends not ready. -/
def scCancelW : Scenario :=
  ⟨true, true, true, true, false, true, none,
   [startingEvent, waitingEvent 0, waitingEvent 1], some 2, .ok (), false⟩

/-- A scenario whose relay stream carries an event with a `ready` key. -/
def scSneakyReady : Scenario :=
  ⟨true, true, true, true, false, true, none,
   [[("progress", .nat 50), ("ready", .bool true)]], none, .ok (), true⟩

/-- A scenario in which the target is already fully ready at request time. -/
def scReady : Scenario :=
  ⟨true, true, true, true, true, false, none, [], none, .ok (), true⟩

/-- A configuration with a per-user named-server limit of 2. -/
def cfgLimit2 : BuilderConfig :=
  ⟨"cdsuser", true, 2⟩

/-- An environment in which the user already has 2 named spawners and the
requested name (`dash1-20200102-030405`) does not exist yet. -/
def envAtLimitNew : StartEnv :=
  ⟨some "oid", .ok (some ()), .ok (), ⟨2020, 1, 2, 3, 4, 5⟩,
   ["other1", "other2"], 2, false, .ok ()⟩

/-- An environment identical to `envAtLimitNew` except that the requested
name already exists among the user's spawners. -/
def envAtLimitExisting : StartEnv :=
  ⟨some "oid", .ok (some ()), .ok (), ⟨2020, 1, 2, 3, 4, 5⟩,
   ["dash1-20200102-030405", "other2"], 2, false, .ok ()⟩

/-- The endpoint scenario of a subscriber watching the fully successful
build of `envOK`: it receives the 9 pushed events and the build ends
ready. -/
def scSuccess : Scenario :=
  ⟨true, true, true, true, false, true, none,
   generateProgress (builderStart cfgDefault dashA envOK).1, none, .ok (), true⟩

/-! ## Helper lemmas -/

lemma any_filter_ready_false (l : List (String × EVal)) :
    (l.filter (fun kv => kv.1 != "ready")).any (fun kv => kv.1 == "ready") = false := by
  induction l with
  | nil => rfl
  | cons kv t ih =>
    by_cases h : kv.1 = "ready"
    · simp [List.filter_cons, h, ih]
    · simp [List.filter_cons, h, ih]

lemma hasKey_popReady (ev : Event) : hasKey (popReady ev) "ready" = false := by
  unfold popReady
  split
  · exact any_filter_ready_false ev
  · next h => simpa using h

lemma relayed_no_ready (sc : Scenario) (ev : Event) (h : ev ∈ relayedEvents sc) :
    hasKey ev "ready" = false := by
  unfold relayedEvents at h
  rcases List.mem_map.1 h with ⟨e, _, rfl⟩
  exact hasKey_popReady e

lemma hasKey_failed_event (msg : String) : hasKey (failed_event msg) "ready" = false := by
  simp [failed_event, hasKey]

lemma sent_ready_eq (sc : Scenario) (ev : Event)
    (hmem : ev ∈ sentEvents (endpointGet sc)) (hk : hasKey ev "ready" = true) :
    ev = ready_event := by
  unfold endpointGet at hmem
  by_cases h1 : sc.dashboardFound = false ∨ sc.userFound = false
  · rw [if_pos h1] at hmem
    simp [sentEvents] at hmem
  rw [if_neg h1] at hmem
  by_cases h2 : sc.userMatches = false
  · rw [if_pos h2] at hmem
    simp [sentEvents] at hmem
  rw [if_neg h2] at hmem
  by_cases h3 : sc.userAllowed = false
  · rw [if_pos h3] at hmem
    simp [sentEvents] at hmem
  rw [if_neg h3] at hmem
  by_cases h4 : sc.builderReady = true
  · rw [if_pos h4] at hmem
    simpa [sentEvents] using hmem
  rw [if_neg h4] at hmem
  by_cases h5 : sc.buildPending = false
  · rw [if_pos h5] at hmem
    cases hfp : sc.futurePre with
    | none =>
      rw [hfp] at hmem
      simp [sentEvents] at hmem
    | some f =>
      cases f with
      | error e =>
        rw [hfp] at hmem
        simp [sentEvents] at hmem
        rw [hmem] at hk
        rw [hasKey_failed_event] at hk
        exact absurd hk (by simp)
      | ok u =>
        rw [hfp] at hmem
        simp [sentEvents] at hmem
  · rw [if_neg h5] at hmem
    cases hff : sc.futureFinal with
    | error e =>
      rw [hff] at hmem
      simp only [sentEvents] at hmem
      have := relayed_no_ready sc ev hmem
      rw [this] at hk
      exact absurd hk (by simp)
    | ok u =>
      rw [hff] at hmem
      by_cases h6 : sc.readyFinal = true
      · rw [if_pos h6] at hmem
        simp only [sentEvents] at hmem
        rcases List.mem_append.1 hmem with hL | hR
        · have := relayed_no_ready sc ev hL
          rw [this] at hk
          exact absurd hk (by simp)
        · simpa using hR
      · rw [if_neg h6] at hmem
        simp only [sentEvents] at hmem
        rcases List.mem_append.1 hmem with hL | hR
        · have := relayed_no_ready sc ev hL
          rw [this] at hk
          exact absurd hk (by simp)
        · have hev : ev = failed_event "Build failed" := by simpa using hR
          rw [hev, hasKey_failed_event] at hk
          exact absurd hk (by simp)

lemma builderStart_ok_shape (cfg : BuilderConfig) (dash : DashboardRec) (env : StartEnv)
    (tr : List BAction) (r : String × List (String × String)) (p : Bool)
    (h : builderStart cfg dash env = (tr, .ok r, p)) :
    tr = [.emit startingEvent, .bridge "inspect_container", .bridge "commit"] ++ waitLoop ∧
    r = (dash.urlname ++ "-" ++ strftimeTag env.now,
         [("image", BuilderConfig.repo_prefix cfg ++ "/" ++ dash.urlname ++ ":" ++
            strftimeTag env.now)]) ∧
    p = true := by
  simp only [builderStart] at h
  repeat' split at h
  all_goals
    first
      | exact Except.noConfusion (congrArg (fun x => x.2.1) h)
      | (refine ⟨(congrArg (fun x => x.1) h).symm, ?_, (congrArg (fun x => x.2.2) h).symm⟩
         have h2 := congrArg (fun x => x.2.1) h
         simp only at h2
         injection h2 with h3
         exact h3.symm)

/-! ## Claims -/

/-- C1: after the build orchestration around `start` finishes — whether
`start` returned successfully, failed at any step, or was cancelled
mid-sequence — the pending flag is false, and the build future is settled
with exactly the result or error `start` produced. -/
theorem runBuild_clears_pending (cfg : BuilderConfig) (dash : DashboardRec) (env : StartEnv) :
    (runBuild cfg dash env).2.2 = false ∧
    (runBuild cfg dash env).2.1 = (builderStart cfg dash env).2.1 :=
  ⟨rfl, rfl⟩

/-- C2 counterexample: with named servers disabled system-wide and every
earlier step succeeding, the build does fail with the named-servers error,
but the trace of that failing run already contains both bridge calls
(`inspect_container` and `commit`) — the failure does not occur before any
bridge call is made. -/
theorem start_disabled_cex :
    (builderStart cfgNoNamed dashA envOK).2.1 =
      .error (.buildExceptionCode 400 "Named servers are not enabled.") ∧
    BAction.bridge "inspect_container" ∈ (builderStart cfgNoNamed dashA envOK).1 ∧
    BAction.bridge "commit" ∈ (builderStart cfgNoNamed dashA envOK).1 := by
  refine ⟨rfl, ?_, ?_⟩ <;> decide

/-- C2 amended: if named-server creation is disabled system-wide and the
inspect and commit steps succeed, the build fails with
`BuildException(400, "Named servers are not enabled.")`, but only after the
inspect and commit bridge calls and the wait loop: the check sits at the
spawn stage of `start`, not before the bridge calls. -/
theorem start_disabled_fails_after_bridge (cfg : BuilderConfig) (dash : DashboardRec)
    (env : StartEnv) (oid : String)
    (hnamed : cfg.allow_named_servers = false)
    (hobj : env.object_id = some oid)
    (hins : env.inspectResult = .ok (some ()))
    (hcom : env.commitResult = .ok ()) :
    builderStart cfg dash env =
      ([.emit startingEvent, .bridge "inspect_container", .bridge "commit"] ++ waitLoop,
       .error (.buildExceptionCode 400 "Named servers are not enabled."), true) := by
  simp [builderStart, hobj, hins, hcom, hnamed]

/-- C2 amended, witness at a concrete input. -/
theorem start_disabled_fails_after_bridge_witness :
    builderStart cfgNoNamed dashA envOK =
      ([.emit startingEvent, .bridge "inspect_container", .bridge "commit"] ++ waitLoop,
       .error (.buildExceptionCode 400 "Named servers are not enabled."), true) :=
  start_disabled_fails_after_bridge cfgNoNamed dashA envOK "oid" rfl rfl rfl rfl

/-- C3: when the commit bridge call fails with `BuildError("disk full")`,
the build future settles with that error, pending becomes false, and the
only event pushed before the failure is the initial one; but the subscribed
endpoint, after relaying it, re-raises the stored error at the bare
`await build_future` (events.py line 92) instead of sending the terminal
failed event: the outcome is `.raised`, and no sent event carries a
`failed` key. -/
theorem commit_failure_raises_instead_of_failed_event :
    (runBuild cfgDefault dashA envDiskFull).2.1 = .error (.buildException "disk full") ∧
    (runBuild cfgDefault dashA envDiskFull).2.2 = false ∧
    generateProgress (runBuild cfgDefault dashA envDiskFull).1 = [startingEvent] ∧
    endpointGet scDiskFull = .raised (.buildException "disk full") [startingEvent] ∧
    hasKey startingEvent "failed" = false :=
  ⟨rfl, rfl, rfl, rfl, rfl⟩

/-- C4 counterexample: a client disconnect after the first of three relayed
events does not make the endpoint stop silently: the handler still emits the
terminal ready event after the cancellation. -/
theorem cancelled_relay_still_emits_terminal_cex :
    endpointGet scCancel = .done [startingEvent, ready_event] ∧
    lookupKey ready_event "ready" = some (.bool true) ∧
    lookupKey ready_event "progress" = some (.nat 100) :=
  ⟨rfl, rfl, rfl⟩

/-- C4 amended: cancellation during relay stops the relay loop silently
(events past the cancellation point are not relayed), but the handler does
not end there: it awaits the build future and, when that settles without
error, still emits a terminal event — ready if the builder ended ready,
otherwise the generic failed event. -/
theorem cancelled_relay_silent_then_terminal (sc : Scenario) (k : Nat)
    (hd : sc.dashboardFound = true) (hu : sc.userFound = true)
    (hm : sc.userMatches = true) (ha : sc.userAllowed = true)
    (hr : sc.builderReady = false) (hp : sc.buildPending = true)
    (hc : sc.cancelAfter = some k) (hf : sc.futureFinal = .ok ()) :
    endpointGet sc =
      .done ((sc.relayEvents.take k).map popReady ++
        [if sc.readyFinal then ready_event else failed_event "Build failed"]) := by
  by_cases h6 : sc.readyFinal = true <;>
    simp [endpointGet, relayedEvents, hd, hu, hm, ha, hr, hp, hc, hf, h6]

/-- C4 amended, witness at a concrete input. -/
theorem cancelled_relay_silent_then_terminal_witness :
    endpointGet scCancelW =
      .done ((scCancelW.relayEvents.take 2).map popReady ++
        [if scCancelW.readyFinal then ready_event else failed_event "Build failed"]) :=
  cancelled_relay_silent_then_terminal scCancelW 2 rfl rfl rfl rfl rfl rfl rfl rfl

/-- C5: every event of the relay phase has its `ready` key stripped before
being sent, and any sent event that does carry a `ready` key is exactly the
ready terminal event synthesized by the endpoint itself. -/
theorem relay_strips_ready (sc : Scenario) :
    (∀ ev ∈ relayedEvents sc, hasKey ev "ready" = false) ∧
    (∀ ev ∈ sentEvents (endpointGet sc), hasKey ev "ready" = true → ev = ready_event) :=
  ⟨fun ev h => relayed_no_ready sc ev h,
   fun ev h hk => sent_ready_eq sc ev h hk⟩

/-- C5 witness at concrete inputs. -/
theorem relay_strips_ready_witness :
    hasKey (popReady [("progress", EVal.nat 50), ("ready", EVal.bool true)]) "ready" = false ∧
    ready_event = ready_event :=
  ⟨(relay_strips_ready scSneakyReady).1
      (popReady [("progress", EVal.nat 50), ("ready", EVal.bool true)]) (by decide),
   (relay_strips_ready scReady).2 ready_event (by decide) (by decide)⟩

/-- C6: with the inspect and commit steps succeeding and named servers
enabled, (a) if the per-user limit is positive, the requested name does not
exist among the user's spawners, and the count of named spawners (excluding
the default) is at least the limit, `start` fails with the limit error
naming the user and the limit; (b) if the requested name already exists,
the limit check is skipped and the request succeeds. -/
theorem named_server_limit_policy (cfg : BuilderConfig) (dash : DashboardRec)
    (env : StartEnv) (oid : String)
    (hobj : env.object_id = some oid)
    (hins : env.inspectResult = .ok (some ()))
    (hcom : env.commitResult = .ok ())
    (hallow : cfg.allow_named_servers = true) :
    (cfg.named_server_limit_per_user > 0 →
      env.ormSpawnerNames.contains (dash.urlname ++ "-" ++ strftimeTag env.now) = false →
      cfg.named_server_limit_per_user ≤ env.namedSpawnerCount →
      (builderStart cfg dash env).2.1 = .error (.buildException
        ("User " ++ dash.userName ++ " already has the maximum of " ++
          toString cfg.named_server_limit_per_user ++ " named servers." ++
          "  One must be deleted before a new server can be created"))) ∧
    (env.ormSpawnerNames.contains (dash.urlname ++ "-" ++ strftimeTag env.now) = true →
      (if env.spawnerReady then env.pollResult else Except.ok ()) = .ok () →
      (builderStart cfg dash env).2.1 = .ok (dash.urlname ++ "-" ++ strftimeTag env.now,
        [("image", BuilderConfig.repo_prefix cfg ++ "/" ++ dash.urlname ++ ":" ++
           strftimeTag env.now)])) := by
  constructor
  · intro hpos hmem hle
    simp at hmem
    simp [builderStart, hobj, hins, hcom, hallow, hmem, hpos, hle]
  · intro hmem hpoll
    simp at hmem
    simp [builderStart, hobj, hins, hcom, hallow, hmem, hpoll]

/-- C6 witness: a user at limit 2 requesting a fresh name fails with the
limit message; the same user requesting the already-existing name
succeeds. -/
theorem named_server_limit_policy_witness :
    (builderStart cfgLimit2 dashA envAtLimitNew).2.1 = .error (.buildException
      ("User alice already has the maximum of 2 named servers." ++
        "  One must be deleted before a new server can be created")) ∧
    (builderStart cfgLimit2 dashA envAtLimitExisting).2.1 =
      .ok ("dash1-20200102-030405", [("image", "cdsuser/dash1:20200102-030405")]) :=
  ⟨(named_server_limit_policy cfgLimit2 dashA envAtLimitNew "oid" rfl rfl rfl rfl).1
      (by decide) (by decide) (by decide),
   (named_server_limit_policy cfgLimit2 dashA envAtLimitExisting "oid" rfl rfl rfl rfl).2
      (by decide) rfl⟩

/-- C7: when the target is already fully ready, the endpoint emits exactly
one event — the ready terminal event with progress 100, ready true, the
"Server ready at" message and the rendered URL — and ends. -/
theorem ready_immediate (sc : Scenario)
    (hd : sc.dashboardFound = true) (hu : sc.userFound = true)
    (hm : sc.userMatches = true) (ha : sc.userAllowed = true)
    (hr : sc.builderReady = true) :
    endpointGet sc = .done [ready_event] ∧
    (sentEvents (endpointGet sc)).length = 1 ∧
    lookupKey ready_event "progress" = some (.nat 100) ∧
    lookupKey ready_event "ready" = some (.bool true) ∧
    lookupKey ready_event "message" = some (.str "Server ready at testurl") ∧
    lookupKey ready_event "url" = some (.str "testurl") := by
  have h : endpointGet sc = .done [ready_event] := by
    simp [endpointGet, hd, hu, hm, ha, hr]
  refine ⟨h, ?_, rfl, rfl, rfl, rfl⟩
  rw [h]
  rfl

/-- C7 witness at a concrete input. -/
theorem ready_immediate_witness :
    endpointGet scReady = .done [ready_event] ∧
    (sentEvents (endpointGet scReady)).length = 1 ∧
    lookupKey ready_event "progress" = some (.nat 100) ∧
    lookupKey ready_event "ready" = some (.bool true) ∧
    lookupKey ready_event "message" = some (.str "Server ready at testurl") ∧
    lookupKey ready_event "url" = some (.str "testurl") :=
  ready_immediate scReady rfl rfl rfl rfl rfl

/-- C8: every successful `start` returns the launch-target name
`urlname ++ "-" ++ tag` and options `{'image': prefix ++ "/" ++ urlname ++ ":" ++ tag}`,
with the same timestamp tag (formatted YYYYMMDD-HHMMSS by `strftimeTag`) in
both the instance name and the image reference. -/
theorem image_handle_derivation (cfg : BuilderConfig) (dash : DashboardRec) (env : StartEnv)
    (tr : List BAction) (name : String) (opts : List (String × String)) (p : Bool)
    (h : builderStart cfg dash env = (tr, .ok (name, opts), p)) :
    name = dash.urlname ++ "-" ++ strftimeTag env.now ∧
    opts = [("image", BuilderConfig.repo_prefix cfg ++ "/" ++ dash.urlname ++ ":" ++
      strftimeTag env.now)] := by
  have hs := builderStart_ok_shape cfg dash env tr (name, opts) p h
  have h2 := hs.2.1
  exact ⟨congrArg Prod.fst h2, congrArg Prod.snd h2⟩

/-- C8 witness at a concrete input. -/
theorem image_handle_derivation_witness :
    "dash1-20200102-030405" = dashA.urlname ++ "-" ++ strftimeTag envOK.now ∧
    [("image", "cdsuser/dash1:20200102-030405")] =
      [("image", BuilderConfig.repo_prefix cfgDefault ++ "/" ++ dashA.urlname ++ ":" ++
        strftimeTag envOK.now)] :=
  image_handle_derivation cfgDefault dashA envOK trOK "dash1-20200102-030405"
    [("image", "cdsuser/dash1:20200102-030405")] true rfl

/-- C9: every successful build pushes, after the commit bridge call, exactly
8 periodic progress-60 events one sleep apart; together with the initial
progress-10 event that is 9 pushed events, and a subscriber watching the
successful build relays the 9 (ready keys stripped) and then the ready
terminal event — 10 events in total. -/
theorem build_progress_event_sequence (cfg : BuilderConfig) (dash : DashboardRec)
    (env : StartEnv) (tr : List BAction) (r : String × List (String × String)) (p : Bool)
    (h : builderStart cfg dash env = (tr, .ok r, p)) :
    tr = [.emit startingEvent, .bridge "inspect_container", .bridge "commit"] ++
      (List.range 8).flatMap (fun i => [.emit (waitingEvent i), .sleep 1]) ∧
    generateProgress tr = startingEvent :: (List.range 8).map waitingEvent ∧
    (generateProgress tr).length = 9 ∧
    (∀ i : Nat, lookupKey (waitingEvent i) "progress" = some (.nat 60)) ∧
    endpointGet ⟨true, true, true, true, false, true, none,
        generateProgress tr, none, .ok (), true⟩ =
      .done ((generateProgress tr).map popReady ++ [ready_event]) ∧
    (sentEvents (endpointGet ⟨true, true, true, true, false, true, none,
        generateProgress tr, none, .ok (), true⟩)).length = 10 := by
  obtain ⟨htr, -, -⟩ := builderStart_ok_shape cfg dash env tr r p h
  subst htr
  exact ⟨rfl, rfl, rfl, fun i => rfl, rfl, rfl⟩

/-- C9 witness at a concrete input. -/
theorem build_progress_event_sequence_witness :
    (generateProgress trOK).length = 9 ∧
    (sentEvents (endpointGet ⟨true, true, true, true, false, true, none,
        generateProgress trOK, none, .ok (), true⟩)).length = 10 :=
  ⟨(build_progress_event_sequence cfgDefault dashA envOK trOK
      ("dash1-20200102-030405", [("image", "cdsuser/dash1:20200102-030405")]) true rfl).2.2.1,
   (build_progress_event_sequence cfgDefault dashA envOK trOK
      ("dash1-20200102-030405", [("image", "cdsuser/dash1:20200102-030405")]) true rfl).2.2.2.2.2⟩

/-- C10: any ready terminal event the endpoint emits, in any request
whatsoever, has its url field equal to the literal "testurl" and its
message equal to "Server ready at testurl". -/
theorem ready_event_url_constant (sc : Scenario) (ev : Event)
    (hmem : ev ∈ sentEvents (endpointGet sc)) (hk : hasKey ev "ready" = true) :
    lookupKey ev "url" = some (.str "testurl") ∧
    lookupKey ev "message" = some (.str "Server ready at testurl") := by
  rw [sent_ready_eq sc ev hmem hk]
  exact ⟨rfl, rfl⟩

/-- C10 witness at a concrete input. -/
theorem ready_event_url_constant_witness :
    lookupKey ready_event "url" = some (.str "testurl") ∧
    lookupKey ready_event "message" = some (.str "Server ready at testurl") :=
  ready_event_url_constant scReady ready_event (by decide) (by decide)
